import Mathlib

/-!
Verification of `src/transport/MessageHeader.cpp` (CHIP message header
encode/decode). The header wire format is little-endian:

  16 bit: | VERSION: 4 bit | FLAGS: 4 bit | RESERVED: 8 bit |
  32 bit: | MESSAGE_ID                                      |
  64 bit: | SOURCE_NODE_ID (iff source node flag is set)    |
  64 bit: | DEST_NODE_ID (iff destination node flag is set) |

Buffers are embedded as `List Nat` (byte values), with the stated length
passed separately, as in the C API where `data` and `size` are separate
arguments.  Out-of-range accesses of the model list return 0 via `getD`;
the *position* reached by the parser is tracked explicitly (mirroring the
pointer `p`), so that "reads past the stated length" is expressible as
`consumed > size`.
-/

namespace chip

/-- `constexpr size_t kFixedHeaderSizeBytes = 6;` -/
def kFixedHeaderSizeBytes : Nat := 6

/-- `constexpr size_t kNodeIdSizeBytes = 8;` -/
def kNodeIdSizeBytes : Nat := 8

/-- `constexpr uint16_t kFlagDestinationNodeIdPresent = 0x0100;` -/
def kFlagDestinationNodeIdPresent : Nat := 0x0100

/-- `constexpr uint16_t kFlagSourceNodeIdPresent = 0x0200;` -/
def kFlagSourceNodeIdPresent : Nat := 0x0200

/-- `constexpr uint16_t kVersionMask = 0xF000;` -/
def kVersionMask : Nat := 0xF000

/-- `constexpr int kVersionShift = 12;` -/
def kVersionShift : Nat := 12

/-- Modelled from the spec: the supported header version constant
`kHeaderVersion` (called `V` in the spec) is declared in
`MessageHeader.h`, which is not part of the provided sources; the spec's
concrete scenarios fix `V = 1`. -/
def kHeaderVersion : Nat := 1

/-- The error codes used by `MessageHeader::Decode` / `Encode`
(from `core/CHIPError.h`). -/
inductive CHIP_ERROR where
  | CHIP_NO_ERROR
  | CHIP_ERROR_INVALID_ARGUMENT
  | CHIP_ERROR_VERSION_MISMATCH
  deriving DecidableEq, Repr

export CHIP_ERROR (CHIP_NO_ERROR CHIP_ERROR_INVALID_ARGUMENT CHIP_ERROR_VERSION_MISMATCH)

/-- The mutable fields of `class MessageHeader`: `mMessageId : uint32_t`,
and the two `Optional<uint64_t>` node ids.  `Optional` (presence flag plus
value) is embedded as `Option Nat`: `SetValue v ↦ some v`,
`ClearValue ↦ none`, `HasValue ↦ isSome`. -/
structure MessageHeader where
  mMessageId : Nat
  mSourceNodeId : Option Nat
  mDestinationNodeId : Option Nat
  deriving DecidableEq, Repr

/-- Modelled from the spec: `chip::Encoding::LittleEndian::Read16`
(`core/CHIPEncoding.h` is not in the provided sources) — read a 16-bit
little-endian word at `off`, low byte first. -/
def read16 (data : List Nat) (off : Nat) : Nat :=
  data.getD off 0 + 2 ^ 8 * data.getD (off + 1) 0

/-- Modelled from the spec: `LittleEndian::Read32` — 32-bit little-endian
read, low half first. -/
def read32 (data : List Nat) (off : Nat) : Nat :=
  read16 data off + 2 ^ 16 * read16 data (off + 2)

/-- Modelled from the spec: `LittleEndian::Read64` — 64-bit little-endian
read, low half first. -/
def read64 (data : List Nat) (off : Nat) : Nat :=
  read32 data off + 2 ^ 32 * read32 data (off + 4)

/-- Modelled from the spec: `LittleEndian::Write8` — store one byte at
`off` (a 64/32/16-bit value is truncated to its low byte). -/
def write8 (buf : List Nat) (off v : Nat) : List Nat :=
  buf.set off (v % 2 ^ 8)

/-- Modelled from the spec: `LittleEndian::Write16` — 16-bit little-endian
store, low byte first. -/
def write16 (buf : List Nat) (off v : Nat) : List Nat :=
  write8 (write8 buf off v) (off + 1) (v / 2 ^ 8)

/-- Modelled from the spec: `LittleEndian::Write32`. -/
def write32 (buf : List Nat) (off v : Nat) : List Nat :=
  write16 (write16 buf off v) (off + 2) (v / 2 ^ 16)

/-- Modelled from the spec: `LittleEndian::Write64`. -/
def write64 (buf : List Nat) (off v : Nat) : List Nat :=
  write32 (write32 buf off v) (off + 4) (v / 2 ^ 32)

/-- `MessageHeader::EncodeSizeBytes`: the fixed 6 bytes plus 8 for each
present optional node id. -/
def MessageHeader.EncodeSizeBytes (self : MessageHeader) : Nat :=
  kFixedHeaderSizeBytes
    + (if self.mSourceNodeId.isSome then kNodeIdSizeBytes else 0)
    + (if self.mDestinationNodeId.isSome then kNodeIdSizeBytes else 0)

/-- Result of `MessageHeader::Decode`: the returned `CHIP_ERROR`, the
object's fields after the call (the method mutates `*this`), and the
final pointer offset `p - data` (how many bytes past the start of the
buffer the parser has advanced, counting every performed read). -/
structure DecodeResult where
  err : CHIP_ERROR
  hdr : MessageHeader
  consumed : Nat
  deriving DecidableEq, Repr

/-- The destination-node-id block of `MessageHeader::Decode` (the second
`if (header & kFlag...)` block, identical in both source-flag branches):
given the state reached after the source-id block — fields `hdr`, read
position `p`, remaining-size counter `size` — check the flag, require
`size >= kNodeIdSizeBytes`, read 8 bytes, or clear the field. -/
def decodeDest (hdr : MessageHeader) (data : List Nat) (p size header : Nat) :
    DecodeResult :=
  if header &&& kFlagDestinationNodeIdPresent ≠ 0 then
    if size ≥ kNodeIdSizeBytes then
      ⟨CHIP_NO_ERROR, { hdr with mDestinationNodeId := some (read64 data p) },
        p + kNodeIdSizeBytes⟩
    else ⟨CHIP_ERROR_INVALID_ARGUMENT, hdr, p⟩
  else ⟨CHIP_NO_ERROR, { hdr with mDestinationNodeId := none }, p⟩

/-- `MessageHeader::Decode(const uint8_t * data, size_t size)`, faithful
to the source including its bookkeeping: after the 8-byte source node id
is read the code executes `size -= kFixedHeaderSizeBytes` (6, not 8).
`VerifyOrExit` failures return the fields as mutated so far. -/
def MessageHeader.Decode (self : MessageHeader) (data : List Nat) (size : Nat) :
    DecodeResult :=
  if size ≥ kFixedHeaderSizeBytes then
    let header := read16 data 0
    let version := (header &&& kVersionMask) >>> kVersionShift
    if version = kHeaderVersion then
      let hdr1 : MessageHeader := { self with mMessageId := read32 data 2 }
      let size1 := size - kFixedHeaderSizeBytes
      if header &&& kFlagSourceNodeIdPresent ≠ 0 then
        if size1 ≥ kNodeIdSizeBytes then
          let hdr2 : MessageHeader :=
            { hdr1 with mSourceNodeId := some (read64 data kFixedHeaderSizeBytes) }
          -- source: `size -= kFixedHeaderSizeBytes;` (after an 8-byte read)
          let size2 := size1 - kFixedHeaderSizeBytes
          decodeDest hdr2 data (kFixedHeaderSizeBytes + kNodeIdSizeBytes) size2 header
        else ⟨CHIP_ERROR_INVALID_ARGUMENT, hdr1, kFixedHeaderSizeBytes⟩
      else
        decodeDest { hdr1 with mSourceNodeId := none } data
          kFixedHeaderSizeBytes size1 header
    else ⟨CHIP_ERROR_VERSION_MISMATCH, self, 2⟩
  else ⟨CHIP_ERROR_INVALID_ARGUMENT, self, 0⟩

/-- `MessageHeader::Encode(uint8_t * data, size_t size, size_t * encode_size)`:
returns the `CHIP_ERROR`, the output buffer after the call, and the value
stored through `encode_size` (`none` when the size check fails and the
store is skipped). -/
def MessageHeader.Encode (self : MessageHeader) (buf : List Nat) (size : Nat) :
    CHIP_ERROR × List Nat × Option Nat :=
  if size ≥ self.EncodeSizeBytes then
    let header :=
      (kHeaderVersion <<< kVersionShift)
        ||| (if self.mSourceNodeId.isSome then kFlagSourceNodeIdPresent else 0)
        ||| (if self.mDestinationNodeId.isSome then kFlagDestinationNodeIdPresent else 0)
    let buf1 := write16 buf 0 header
    let buf2 := write32 buf1 2 self.mMessageId
    let sp : List Nat × Nat :=
      match self.mSourceNodeId with
      | some s => (write64 buf2 kFixedHeaderSizeBytes s,
          kFixedHeaderSizeBytes + kNodeIdSizeBytes)
      | none => (buf2, kFixedHeaderSizeBytes)
    let dp : List Nat × Nat :=
      match self.mDestinationNodeId with
      | some d => (write64 sp.1 sp.2 d, sp.2 + kNodeIdSizeBytes)
      | none => sp
    (CHIP_NO_ERROR, dp.1, some dp.2)
  else (CHIP_ERROR_INVALID_ARGUMENT, buf, none)

/-- A 20-byte buffer whose header word `0x1300` has version 1 and both
presence flags set.  Bytes [6,14) hold the source node id; only 6 bytes
remain after it, fewer than the destination field's 8. -/
def truncBuf : List Nat :=
  [0x00, 0x13, 0x04, 0x03, 0x02, 0x01,
   0x88, 0x77, 0x66, 0x55, 0x44, 0x33, 0x22, 0x11,
   0xAA, 0xBB, 0xCC, 0xDD, 0xEE, 0xFF]

/-- C1: on the 20-byte buffer `truncBuf` the destination-present flag is
set and only 6 = 20 - 14 bytes remain after the 14 already consumed, yet
`Decode` returns `CHIP_NO_ERROR` instead of the claimed
`CHIP_ERROR_INVALID_ARGUMENT`: the `size -= kFixedHeaderSizeBytes` slip
after the 8-byte source read makes the destination bounds check pass. -/
theorem decode_accepts_truncated_destination :
    truncBuf.length = 20 ∧
    read16 truncBuf 0 &&& kFlagSourceNodeIdPresent ≠ 0 ∧
    read16 truncBuf 0 &&& kFlagDestinationNodeIdPresent ≠ 0 ∧
    20 - (kFixedHeaderSizeBytes + kNodeIdSizeBytes) < kNodeIdSizeBytes ∧
    (MessageHeader.Decode ⟨0, none, none⟩ truncBuf 20).err = CHIP_NO_ERROR := by
  decide

/-- C2: on `truncBuf` with stated size 20, `Decode` succeeds with its read
pointer having advanced to offset 22 — the destination's 8 bytes were
read from offsets [14, 22), i.e. past the stated end of the buffer. -/
theorem decode_reads_past_stated_size :
    (MessageHeader.Decode ⟨0, none, none⟩ truncBuf 20).err = CHIP_NO_ERROR ∧
    (MessageHeader.Decode ⟨0, none, none⟩ truncBuf 20).consumed = 22 ∧
    20 < (MessageHeader.Decode ⟨0, none, none⟩ truncBuf 20).consumed := by
  decide

/-- C7: `EncodeSizeBytes` is 6 with no optional field present, 14 with
exactly one present, and 22 with both present (6 plus 8 per present
node id); it is a total function with no failure result. -/
theorem encodeSizeBytes_enumeration (h : MessageHeader) :
    h.EncodeSizeBytes =
      if h.mSourceNodeId.isSome then
        (if h.mDestinationNodeId.isSome then 22 else 14)
      else
        (if h.mDestinationNodeId.isSome then 14 else 6) := by
  rcases h with ⟨m, s, d⟩
  rcases s <;> rcases d <;> rfl

/-- C8: with `V = 1` and `messageId = 0x01020304`, encoding with no
optional fields yields exactly `00 10 04 03 02 01`, and encoding with
`sourceNodeId = 0x1122334455667788` (destination absent) yields exactly
`00 12 04 03 02 01 88 77 66 55 44 33 22 11`. -/
theorem encode_concrete_scenarios :
    MessageHeader.Encode ⟨0x01020304, none, none⟩ (List.replicate 6 0) 6
      = (CHIP_NO_ERROR, [0x00, 0x10, 0x04, 0x03, 0x02, 0x01], some 6) ∧
    MessageHeader.Encode ⟨0x01020304, some 0x1122334455667788, none⟩
        (List.replicate 14 0) 14
      = (CHIP_NO_ERROR,
         [0x00, 0x12, 0x04, 0x03, 0x02, 0x01,
          0x88, 0x77, 0x66, 0x55, 0x44, 0x33, 0x22, 0x11], some 14) := by
  decide

/-- C6: encoding into a buffer whose stated capacity is below
`EncodeSizeBytes` fails with `CHIP_ERROR_INVALID_ARGUMENT`, returns the
output buffer byte-for-byte unchanged, and does not store through
`encode_size`. -/
theorem encode_small_buffer_atomic (h : MessageHeader) (buf : List Nat)
    (size : Nat) (hsz : size < h.EncodeSizeBytes) :
    h.Encode buf size = (CHIP_ERROR_INVALID_ARGUMENT, buf, none) := by
  unfold MessageHeader.Encode
  rw [if_neg (by omega)]

theorem encode_small_buffer_atomic_witness :
    (5 : Nat) < MessageHeader.EncodeSizeBytes ⟨7, none, none⟩ ∧
    MessageHeader.Encode ⟨7, none, none⟩ [1, 2, 3, 4, 5] 5
      = (CHIP_ERROR_INVALID_ARGUMENT, [1, 2, 3, 4, 5], none) :=
  ⟨by decide, encode_small_buffer_atomic ⟨7, none, none⟩ [1, 2, 3, 4, 5] 5 (by decide)⟩

/-- C5: if the buffer is at least 6 bytes but the top 4 bits of its
little-endian header word differ from `kHeaderVersion`, `Decode` fails
with `CHIP_ERROR_VERSION_MISMATCH`, leaves every field of the header
object unchanged, and has interpreted nothing beyond the header word
(its read pointer stopped at offset 2), regardless of the remaining
bytes. -/
theorem decode_version_mismatch (h : MessageHeader) (data : List Nat)
    (size : Nat) (hsz : kFixedHeaderSizeBytes ≤ size)
    (hver : (read16 data 0 &&& kVersionMask) >>> kVersionShift ≠ kHeaderVersion) :
    h.Decode data size = ⟨CHIP_ERROR_VERSION_MISMATCH, h, 2⟩ := by
  unfold MessageHeader.Decode
  rw [if_pos hsz, if_neg hver]

theorem decode_version_mismatch_witness :
    kFixedHeaderSizeBytes ≤ 6 ∧
    (read16 [0x00, 0x23, 1, 2, 3, 4] 0 &&& kVersionMask) >>> kVersionShift
      ≠ kHeaderVersion ∧
    MessageHeader.Decode ⟨5, some 6, none⟩ [0x00, 0x23, 1, 2, 3, 4] 6
      = ⟨CHIP_ERROR_VERSION_MISMATCH, ⟨5, some 6, none⟩, 2⟩ :=
  ⟨by decide, by decide,
    decode_version_mismatch ⟨5, some 6, none⟩ [0x00, 0x23, 1, 2, 3, 4] 6
      (by decide) (by decide)⟩

/-- C9: when `Decode` fails because the stated size is below 6, or fails
the version check, the header object keeps all its prior field values:
both checks precede every field assignment.  The error is
`CHIP_ERROR_INVALID_ARGUMENT` in the first case and
`CHIP_ERROR_VERSION_MISMATCH` in the second. -/
theorem decode_early_failure_preserves_fields (h : MessageHeader)
    (data : List Nat) (size : Nat)
    (hc : size < kFixedHeaderSizeBytes ∨
      (read16 data 0 &&& kVersionMask) >>> kVersionShift ≠ kHeaderVersion) :
    (h.Decode data size).hdr = h ∧
    (h.Decode data size).err =
      (if size < kFixedHeaderSizeBytes then CHIP_ERROR_INVALID_ARGUMENT
       else CHIP_ERROR_VERSION_MISMATCH) := by
  unfold MessageHeader.Decode
  rcases Nat.lt_or_ge size kFixedHeaderSizeBytes with hlt | hge
  · rw [if_neg (by omega), if_pos hlt]
    exact ⟨rfl, rfl⟩
  · have hver := hc.resolve_left (by omega)
    rw [if_pos hge, if_neg hver, if_neg (by omega)]
    exact ⟨rfl, rfl⟩

theorem decode_early_failure_preserves_fields_witness :
    ((3 : Nat) < kFixedHeaderSizeBytes ∨
      (read16 [9, 9, 9] 0 &&& kVersionMask) >>> kVersionShift ≠ kHeaderVersion) ∧
    (MessageHeader.Decode ⟨11, none, some 13⟩ [9, 9, 9] 3).hdr = ⟨11, none, some 13⟩ ∧
    (MessageHeader.Decode ⟨11, none, some 13⟩ [9, 9, 9] 3).err =
      (if (3 : Nat) < kFixedHeaderSizeBytes then CHIP_ERROR_INVALID_ARGUMENT
       else CHIP_ERROR_VERSION_MISMATCH) :=
  ⟨Or.inl (by decide),
    decode_early_failure_preserves_fields ⟨11, none, some 13⟩ [9, 9, 9] 3
      (Or.inl (by decide))⟩

/-- C10: a successful `Decode` yields a header determined by the buffer
bytes alone: running it on the same buffer and size from two header
objects with arbitrary different prior fields gives success both times
and field-wise equal results (messageId is always overwritten and each
optional id is either set from the buffer or explicitly cleared). -/
theorem decode_success_independent_of_prior (h1 h2 : MessageHeader)
    (data : List Nat) (size : Nat)
    (hok : (h1.Decode data size).err = CHIP_NO_ERROR) :
    (h2.Decode data size).err = CHIP_NO_ERROR ∧
    (h2.Decode data size).hdr = (h1.Decode data size).hdr := by
  simp only [MessageHeader.Decode, decodeDest] at hok ⊢
  split_ifs <;> simp_all

theorem decode_success_independent_of_prior_witness :
    (MessageHeader.Decode ⟨1, some 2, some 3⟩ [0x00, 0x10, 7, 0, 0, 0] 6).err
      = CHIP_NO_ERROR ∧
    (MessageHeader.Decode ⟨4, none, some 5⟩ [0x00, 0x10, 7, 0, 0, 0] 6).err
      = CHIP_NO_ERROR ∧
    (MessageHeader.Decode ⟨4, none, some 5⟩ [0x00, 0x10, 7, 0, 0, 0] 6).hdr
      = (MessageHeader.Decode ⟨1, some 2, some 3⟩ [0x00, 0x10, 7, 0, 0, 0] 6).hdr :=
  ⟨by decide,
    decode_success_independent_of_prior ⟨1, some 2, some 3⟩ ⟨4, none, some 5⟩
      [0x00, 0x10, 7, 0, 0, 0] 6 (by decide)⟩

/-- C4: after the 8-byte source node id the code subtracts the fixed
header size 6 (not 8) from its remaining-size counter, so on a buffer
whose header word has a valid version and both presence flags, decoding
succeeds exactly when the stated size is at least 20 (not 22); on such
sizes (including 20 and 21) the read pointer ends at offset 22, the
destination having been read from offsets [14, 22). -/
theorem decode_both_present_size_bound (h : MessageHeader) (data : List Nat)
    (size : Nat)
    (hver : (read16 data 0 &&& kVersionMask) >>> kVersionShift = kHeaderVersion)
    (hsrc : read16 data 0 &&& kFlagSourceNodeIdPresent ≠ 0)
    (hdst : read16 data 0 &&& kFlagDestinationNodeIdPresent ≠ 0) :
    ((h.Decode data size).err = CHIP_NO_ERROR ↔ 20 ≤ size) ∧
    (20 ≤ size →
      (h.Decode data size).consumed = kFixedHeaderSizeBytes + 2 * kNodeIdSizeBytes ∧
      (h.Decode data size).hdr.mDestinationNodeId
        = some (read64 data (kFixedHeaderSizeBytes + kNodeIdSizeBytes))) := by
  unfold MessageHeader.Decode decodeDest
  rw [if_pos hver]
  simp only [if_pos hsrc, if_pos hdst]
  unfold kFixedHeaderSizeBytes kNodeIdSizeBytes
  split_ifs <;> simp_all <;> omega

theorem decode_both_present_size_bound_witness :
    ((read16 truncBuf 0 &&& kVersionMask) >>> kVersionShift = kHeaderVersion ∧
      read16 truncBuf 0 &&& kFlagSourceNodeIdPresent ≠ 0 ∧
      read16 truncBuf 0 &&& kFlagDestinationNodeIdPresent ≠ 0) ∧
    ((MessageHeader.Decode ⟨0, none, none⟩ truncBuf 20).err = CHIP_NO_ERROR
        ↔ 20 ≤ 20) ∧
    (20 ≤ 20 →
      (MessageHeader.Decode ⟨0, none, none⟩ truncBuf 20).consumed
          = kFixedHeaderSizeBytes + 2 * kNodeIdSizeBytes ∧
      (MessageHeader.Decode ⟨0, none, none⟩ truncBuf 20).hdr.mDestinationNodeId
        = some (read64 truncBuf (kFixedHeaderSizeBytes + kNodeIdSizeBytes))) :=
  ⟨⟨by decide, by decide, by decide⟩,
    decode_both_present_size_bound ⟨0, none, none⟩ truncBuf 20
      (by decide) (by decide) (by decide)⟩

/-- C3: for every header with in-range field values (messageId below
2^32, node ids below 2^64) and any of the four present/absent
combinations of the optional node ids, encoding into a sufficiently
large buffer succeeds, and decoding the written bytes (from any prior
header state `g`) succeeds and reproduces the header field-wise,
including the presence/absence of each optional field. -/
theorem decode_encode_roundtrip (h g : MessageHeader)
    (hm : h.mMessageId < 2 ^ 32)
    (hs : ∀ s, h.mSourceNodeId = some s → s < 2 ^ 64)
    (hd : ∀ d, h.mDestinationNodeId = some d → d < 2 ^ 64) :
    (h.Encode (List.replicate h.EncodeSizeBytes 0) h.EncodeSizeBytes).1
      = CHIP_NO_ERROR ∧
    (g.Decode (h.Encode (List.replicate h.EncodeSizeBytes 0) h.EncodeSizeBytes).2.1
        h.EncodeSizeBytes).err = CHIP_NO_ERROR ∧
    (g.Decode (h.Encode (List.replicate h.EncodeSizeBytes 0) h.EncodeSizeBytes).2.1
        h.EncodeSizeBytes).hdr = h := by
  obtain ⟨m, s, d⟩ := h
  rcases s with _ | s <;> rcases d with _ | d
  · simp [MessageHeader.Decode, MessageHeader.Encode, decodeDest, read64, read32,
      read16, write64, write32, write16, write8, MessageHeader.EncodeSizeBytes,
      kFixedHeaderSizeBytes, kNodeIdSizeBytes, kVersionMask, kVersionShift,
      kHeaderVersion, kFlagSourceNodeIdPresent, kFlagDestinationNodeIdPresent,
      List.replicate, List.getD,
      show ((4096 : Nat) &&& 61440) >>> 12 = 1 from by decide,
      show ((4096 : Nat) &&& 512) = 0 from by decide,
      show ((4096 : Nat) &&& 256) = 0 from by decide] at hm ⊢
    omega
  · have hd' := hd d rfl
    simp [MessageHeader.Decode, MessageHeader.Encode, decodeDest, read64, read32,
      read16, write64, write32, write16, write8, MessageHeader.EncodeSizeBytes,
      kFixedHeaderSizeBytes, kNodeIdSizeBytes, kVersionMask, kVersionShift,
      kHeaderVersion, kFlagSourceNodeIdPresent, kFlagDestinationNodeIdPresent,
      List.replicate, List.getD,
      show ((4352 : Nat) &&& 61440) >>> 12 = 1 from by decide,
      show ((4352 : Nat) &&& 512) = 0 from by decide,
      show ((4352 : Nat) &&& 256) = 256 from by decide] at hm ⊢
    omega
  · have hs' := hs s rfl
    simp [MessageHeader.Decode, MessageHeader.Encode, decodeDest, read64, read32,
      read16, write64, write32, write16, write8, MessageHeader.EncodeSizeBytes,
      kFixedHeaderSizeBytes, kNodeIdSizeBytes, kVersionMask, kVersionShift,
      kHeaderVersion, kFlagSourceNodeIdPresent, kFlagDestinationNodeIdPresent,
      List.replicate, List.getD,
      show ((4608 : Nat) &&& 61440) >>> 12 = 1 from by decide,
      show ((4608 : Nat) &&& 512) = 512 from by decide,
      show ((4608 : Nat) &&& 256) = 0 from by decide] at hm ⊢
    omega
  · have hs' := hs s rfl
    have hd' := hd d rfl
    simp [MessageHeader.Decode, MessageHeader.Encode, decodeDest, read64, read32,
      read16, write64, write32, write16, write8, MessageHeader.EncodeSizeBytes,
      kFixedHeaderSizeBytes, kNodeIdSizeBytes, kVersionMask, kVersionShift,
      kHeaderVersion, kFlagSourceNodeIdPresent, kFlagDestinationNodeIdPresent,
      List.replicate, List.getD,
      show ((4864 : Nat) &&& 61440) >>> 12 = 1 from by decide] at hm ⊢
    omega

theorem decode_encode_roundtrip_witness :
    ((MessageHeader.mk 0x01020304 (some 0x1122334455667788) (some 3)).mMessageId
        < 2 ^ 32) ∧
    ((MessageHeader.Encode ⟨0x01020304, some 0x1122334455667788, some 3⟩
        (List.replicate
          (MessageHeader.EncodeSizeBytes ⟨0x01020304, some 0x1122334455667788, some 3⟩) 0)
        (MessageHeader.EncodeSizeBytes ⟨0x01020304, some 0x1122334455667788, some 3⟩)).1
      = CHIP_NO_ERROR ∧
    (MessageHeader.Decode ⟨9, none, some 10⟩
        (MessageHeader.Encode ⟨0x01020304, some 0x1122334455667788, some 3⟩
          (List.replicate
            (MessageHeader.EncodeSizeBytes ⟨0x01020304, some 0x1122334455667788, some 3⟩) 0)
          (MessageHeader.EncodeSizeBytes ⟨0x01020304, some 0x1122334455667788, some 3⟩)).2.1
        (MessageHeader.EncodeSizeBytes ⟨0x01020304, some 0x1122334455667788, some 3⟩)).err
      = CHIP_NO_ERROR ∧
    (MessageHeader.Decode ⟨9, none, some 10⟩
        (MessageHeader.Encode ⟨0x01020304, some 0x1122334455667788, some 3⟩
          (List.replicate
            (MessageHeader.EncodeSizeBytes ⟨0x01020304, some 0x1122334455667788, some 3⟩) 0)
          (MessageHeader.EncodeSizeBytes ⟨0x01020304, some 0x1122334455667788, some 3⟩)).2.1
        (MessageHeader.EncodeSizeBytes ⟨0x01020304, some 0x1122334455667788, some 3⟩)).hdr
      = ⟨0x01020304, some 0x1122334455667788, some 3⟩) :=
  ⟨by decide,
    decode_encode_roundtrip ⟨0x01020304, some 0x1122334455667788, some 3⟩
      ⟨9, none, some 10⟩ (by decide)
      (fun s hs => by cases hs; decide)
      (fun d hd => by cases hd; decide)⟩

end chip
